import Mathlib

/-!
# ws13 WebSocket core — verification of spec claims

Shallow embedding of the ws13 WebSocket library (core frame codec,
send pipeline, close/heartbeat state logic, server accept path, and the
permessage-deflate extension) together with proofs settling the spec's
claims about it.

Bytes are modelled as `Nat` values (with `% 256` / bit masking exactly
where the JavaScript source applies `writeUInt8`, `& 0xFF`, and friends);
buffers are `List Nat`.  The embedding follows the current source of
`index.js` (the revision shipped alongside the README, with auto-reconnect
and the registry) and `permessage-deflate.js` (the revision with the
`maxDecompressSize` cap).  zlib streams are external to the repository and
are represented by abstract compression/inflation output parameters; the
accumulation and bookkeeping logic around them is embedded from the source.
-/

namespace Ws13

/-- A WebSocket frame, mirroring the `Frame` typedef of the source:
`isFin`, `isRsv1..3`, `opcode`, `isMasked`, `payloadLength`, optional
4-byte `maskingKey`, and `payload`. -/
structure Frame where
  isFin : Bool := true
  isRsv1 : Bool := false
  isRsv2 : Bool := false
  isRsv3 : Bool := false
  opcode : Nat := 2
  isMasked : Bool := false
  payloadLength : Nat := 0
  maskingKey : Option (List Nat) := none
  payload : List Nat := []
  deriving Repr, DecidableEq

/-- `Buffer.writeUInt16BE`: the two big-endian bytes of a 16-bit value. -/
def writeUInt16BE (n : Nat) : List Nat :=
  [n / 256 % 256, n % 256]

/-- `Buffer.writeBigUInt64BE`: the eight big-endian bytes of a 64-bit value. -/
def writeUInt64BE (n : Nat) : List Nat :=
  [n / 256 ^ 7 % 256, n / 256 ^ 6 % 256, n / 256 ^ 5 % 256, n / 256 ^ 4 % 256,
   n / 256 ^ 3 % 256, n / 256 ^ 2 % 256, n / 256 % 256, n % 256]

/-- `Buffer.readUInt16BE` over two bytes. -/
def readUInt16BE (b0 b1 : Nat) : Nat := b0 * 256 + b1

/-- `Buffer.readBigUInt64BE` over a list of (eight) bytes. -/
def readUInt64BE (bs : List Nat) : Nat :=
  bs.foldl (fun acc b => acc * 256 + b) 0

/-- The first header byte of `header()` in `sendFrames`:
`opcode` (a continuation frame would use `0x00` instead; serializing a
whole frame starts at `writtenBytes = 0` so the opcode is used), OR-ed
with `0x40/0x20/0x10` for the RSV bits and `0x80` for FIN. -/
def firstByte (opcode : Nat) (isRsv1 isRsv2 isRsv3 isFin : Bool) : Nat :=
  let b := opcode
  let b := if isRsv1 then b ||| 0x40 else b
  let b := if isRsv2 then b ||| 0x20 else b
  let b := if isRsv3 then b ||| 0x10 else b
  if isFin then b ||| 0x80 else b

/-- `calcHeaderLength` from `sendFrames`: 10/4/2 header bytes by payload
size, plus 4 for the masking key when one is present. -/
def calcHeaderLength (maskingKey : Option (List Nat)) (bufLength : Nat) : Nat :=
  if bufLength ≥ 65536 then
    if maskingKey.isSome then 14 else 10
  else if bufLength > 125 then
    if maskingKey.isSome then 8 else 4
  else
    if maskingKey.isSome then 6 else 2

/-- The header bytes built by `header()` in `writeFrame`: first byte,
second byte with mask bit and 7-bit length (or the 126/16-bit and
127/64-bit escape forms), then the four masking-key bytes if masked. -/
def header (isFin isRsv1 isRsv2 isRsv3 : Bool) (opcode : Nat)
    (maskingKey : Option (List Nat)) (bufLength : Nat) : List Nat :=
  let fb := firstByte opcode isRsv1 isRsv2 isRsv3 isFin
  let maskBit : Nat := if maskingKey.isSome then 0x80 else 0x00
  let lenField : List Nat :=
    if bufLength ≥ 65536 then
      (maskBit ||| 127) :: writeUInt64BE bufLength
    else if bufLength > 125 then
      (maskBit ||| 126) :: writeUInt16BE bufLength
    else
      [maskBit ||| bufLength]
  let keyField : List Nat :=
    match maskingKey with
    | some k => [k.getD 0 0, k.getD 1 0, k.getD 2 0, k.getD 3 0]
    | none => []
  fb :: lenField ++ keyField

/-- The masking / unmasking XOR loop
`buf[i] = buf[i] ^ maskingKey[i & 3]`, carrying the running index. -/
def maskBytes (maskingKey : List Nat) : Nat → List Nat → List Nat
  | _, [] => []
  | i, b :: rest => (b ^^^ maskingKey.getD (i &&& 3) 0) :: maskBytes maskingKey (i + 1) rest

/-- Serialization of one whole frame as `writeFrame` emits it: the header
followed by the payload, XOR-masked first when a masking key is present. -/
def serializeFrame (f : Frame) : List Nat :=
  let buf : List Nat :=
    match f.maskingKey with
    | some k => maskBytes k 0 f.payload
    | none => f.payload
  header f.isFin f.isRsv1 f.isRsv2 f.isRsv3 f.opcode f.maskingKey buf.length ++ buf

/-- The frame parser `readFrame` (fresh-frame path): decode the first two
header bytes, the extended payload length, the masking key, take the
payload bytes that are available (`getPayloadBuffer` truncates at the end
of the chunk), and unmask a fully received masked payload.  The source
walks the chunk with `inOffset`; here an offset into the chunk is
represented by the suffix of bytes not yet consumed.  `none` models the
`return null` need-more-data exits. -/
def readFrame (chunk : List Nat) : Option Frame :=
  match chunk with
  | b0 :: b1 :: rest =>
    let isFin := decide (b0 &&& 0x80 ≠ 0)
    let isRsv1 := decide (b0 &&& 0x40 ≠ 0)
    let isRsv2 := decide (b0 &&& 0x20 ≠ 0)
    let isRsv3 := decide (b0 &&& 0x10 ≠ 0)
    let opcode := b0 &&& 0x0F
    let isMasked := decide (b1 &&& 0x80 ≠ 0)
    let len7 := b1 &&& 0x7F
    let lenParsed : Option (Nat × List Nat) :=
      if len7 = 126 then
        match rest with
        | l0 :: l1 :: rest1 => some (readUInt16BE l0 l1, rest1)
        | _ => none
      else if len7 = 127 then
        if rest.length < 8 then none
        else some (readUInt64BE (rest.take 8), rest.drop 8)
      else some (len7, rest)
    match lenParsed with
    | none => none
    | some (payloadLength, rest1) =>
      let keyParsed : Option (Option (List Nat) × List Nat) :=
        if isMasked then
          match rest1 with
          | k0 :: k1 :: k2 :: k3 :: rest2 => some (some [k0, k1, k2, k3], rest2)
          | _ => none
        else some (none, rest1)
      match keyParsed with
      | none => none
      | some (maskingKey, rest2) =>
        let payload := rest2.take payloadLength
        if payload.length < payloadLength ∨ isMasked = false then
          some ⟨isFin, isRsv1, isRsv2, isRsv3, opcode, isMasked,
                payloadLength, maskingKey, payload⟩
        else
          some ⟨isFin, isRsv1, isRsv2, isRsv3, opcode, isMasked,
                payloadLength, maskingKey, maskBytes (maskingKey.getD []) 0 payload⟩
  | _ => none

/-! ## Frame codec lemmas -/

theorem maskBytes_length (k : List Nat) (i : Nat) (p : List Nat) :
    (maskBytes k i p).length = p.length := by
  induction p generalizing i with
  | nil => rfl
  | cons b rest ih => simp [maskBytes, ih]

theorem maskBytes_maskBytes (k : List Nat) (i : Nat) (p : List Nat) :
    maskBytes k i (maskBytes k i p) = p := by
  induction p generalizing i with
  | nil => rfl
  | cons b rest ih => simp [maskBytes, ih, Nat.xor_cancel_right]

theorem firstByte_fields : ∀ o < 16, ∀ r1 r2 r3 fin : Bool,
    firstByte o r1 r2 r3 fin &&& 0x0F = o ∧
    decide (firstByte o r1 r2 r3 fin &&& 0x80 ≠ 0) = fin ∧
    decide (firstByte o r1 r2 r3 fin &&& 0x40 ≠ 0) = r1 ∧
    decide (firstByte o r1 r2 r3 fin &&& 0x20 ≠ 0) = r2 ∧
    decide (firstByte o r1 r2 r3 fin &&& 0x10 ≠ 0) = r3 := by decide

theorem secondByte_small : ∀ n < 126, ∀ m : Bool,
    ((if m then (0x80 : Nat) else 0x00) ||| n) &&& 0x7F = n ∧
    decide (((if m then (0x80 : Nat) else 0x00) ||| n) &&& 0x80 ≠ 0) = m := by decide

theorem secondByte_126 : ∀ m : Bool,
    ((if m then (0x80 : Nat) else 0x00) ||| 126) &&& 0x7F = 126 ∧
    decide (((if m then (0x80 : Nat) else 0x00) ||| 126) &&& 0x80 ≠ 0) = m := by decide

theorem secondByte_127 : ∀ m : Bool,
    ((if m then (0x80 : Nat) else 0x00) ||| 127) &&& 0x7F = 127 ∧
    decide (((if m then (0x80 : Nat) else 0x00) ||| 127) &&& 0x80 ≠ 0) = m := by decide

theorem read_write_UInt16BE (n : Nat) (h : n < 65536) :
    readUInt16BE (n / 256 % 256) (n % 256) = n := by
  unfold readUInt16BE; omega

theorem read_write_UInt64BE (n : Nat) (h : n < 2 ^ 64) :
    readUInt64BE (writeUInt64BE n) = n := by
  simp only [readUInt64BE, writeUInt64BE, List.foldl]
  omega

theorem rt_unmasked_small (f : Frame)
    (hop : f.opcode < 16)
    (hkey : f.maskingKey = none)
    (hmask : f.isMasked = false)
    (hplen : f.payloadLength = f.payload.length)
    (hsmall : f.payload.length ≤ 125) :
    readFrame (serializeFrame f) = some f := by
  obtain ⟨fin, r1, r2, r3, op, im, pl, mk, p⟩ := f
  simp only at hop hkey hmask hplen hsmall
  subst hkey hmask hplen
  have h1 := firstByte_fields op hop r1 r2 r3 fin
  have h2 := secondByte_small p.length (by omega) false
  simp only [serializeFrame, header, Option.isSome_none, if_neg, Bool.false_eq_true,
    if_false] at *
  simp only [readFrame, serializeFrame, header]
  simp only [if_neg (by omega : ¬ p.length ≥ 65536), if_neg (by omega : ¬ p.length > 125)]
  simp_all
  rw [if_neg (by omega : ¬ p.length = 126), if_neg (by omega : ¬ p.length = 127)]
  simp [List.take_length]

theorem rt_masked_small (f : Frame) (a b c d : Nat)
    (hop : f.opcode < 16)
    (hkey : f.maskingKey = some [a, b, c, d])
    (hmask : f.isMasked = true)
    (hplen : f.payloadLength = f.payload.length)
    (hsmall : f.payload.length ≤ 125) :
    readFrame (serializeFrame f) = some f := by
  obtain ⟨fin, r1, r2, r3, op, im, pl, mk, p⟩ := f
  simp only at hop hkey hmask hplen hsmall
  subst hkey hmask hplen
  have h1 := firstByte_fields op hop r1 r2 r3 fin
  have h2 := secondByte_small p.length (by omega) true
  have hml := maskBytes_length [a, b, c, d] 0 p
  have hmm := maskBytes_maskBytes [a, b, c, d] 0 p
  simp only [serializeFrame, header, Option.isSome_some, if_pos] at *
  rw [hml]
  rw [if_neg (by omega : ¬ p.length ≥ 65536), if_neg (by omega : ¬ p.length > 125)]
  simp_all
  simp only [readFrame, h2.1]
  rw [if_neg (by omega : ¬ p.length = 126), if_neg (by omega : ¬ p.length = 127)]
  have htake : List.take p.length (maskBytes [a, b, c, d] 0 p) = maskBytes [a, b, c, d] 0 p :=
    List.take_of_length_le (le_of_eq hml)
  simp [htake, hml, hmm, decide_not, h1.1, h1.2.1, h1.2.2.1, h1.2.2.2.1, h1.2.2.2.2]
  rw [if_neg h2.2]
  simp [hml, htake, hmm, h2.2]

theorem rt_unmasked_16 (f : Frame)
    (hop : f.opcode < 16)
    (hkey : f.maskingKey = none)
    (hmask : f.isMasked = false)
    (hplen : f.payloadLength = f.payload.length)
    (hlo : 125 < f.payload.length)
    (hhi : f.payload.length < 65536) :
    readFrame (serializeFrame f) = some f := by
  obtain ⟨fin, r1, r2, r3, op, im, pl, mk, p⟩ := f
  simp only at hop hkey hmask hplen hlo hhi
  subst hkey hmask hplen
  have h1 := firstByte_fields op hop r1 r2 r3 fin
  have h2 := secondByte_126 false
  have h3 := read_write_UInt16BE p.length hhi
  simp only [serializeFrame, header, Option.isSome_none, Bool.false_eq_true, if_false] at *
  rw [if_neg (by omega : ¬ p.length ≥ 65536), if_pos (by omega : p.length > 125)]
  simp only [writeUInt16BE, readFrame, List.cons_append, List.nil_append]
  simp_all

theorem rt_masked_16 (f : Frame) (a b c d : Nat)
    (hop : f.opcode < 16)
    (hkey : f.maskingKey = some [a, b, c, d])
    (hmask : f.isMasked = true)
    (hplen : f.payloadLength = f.payload.length)
    (hlo : 125 < f.payload.length)
    (hhi : f.payload.length < 65536) :
    readFrame (serializeFrame f) = some f := by
  obtain ⟨fin, r1, r2, r3, op, im, pl, mk, p⟩ := f
  simp only at hop hkey hmask hplen hlo hhi
  subst hkey hmask hplen
  have h1 := firstByte_fields op hop r1 r2 r3 fin
  have h2 := secondByte_126 true
  have h3 := read_write_UInt16BE p.length hhi
  have hml := maskBytes_length [a, b, c, d] 0 p
  have hmm := maskBytes_maskBytes [a, b, c, d] 0 p
  have htake : List.take p.length (maskBytes [a, b, c, d] 0 p) = maskBytes [a, b, c, d] 0 p :=
    List.take_of_length_le (le_of_eq hml)
  simp only [serializeFrame, header, Option.isSome_some, if_pos] at *
  rw [hml]
  rw [if_neg (by omega : ¬ p.length ≥ 65536), if_pos (by omega : p.length > 125)]
  simp only [writeUInt16BE, readFrame, List.cons_append, List.nil_append]
  simp only [h2.1, if_pos rfl, ne_eq, h3]
  simp_all [decide_not]
  rw [List.take_of_length_le (le_of_eq hml), hmm]

theorem rt_unmasked_64 (f : Frame)
    (hop : f.opcode < 16)
    (hkey : f.maskingKey = none)
    (hmask : f.isMasked = false)
    (hplen : f.payloadLength = f.payload.length)
    (hlo : 65536 ≤ f.payload.length)
    (hhi : f.payload.length < 2 ^ 64) :
    readFrame (serializeFrame f) = some f := by
  obtain ⟨fin, r1, r2, r3, op, im, pl, mk, p⟩ := f
  simp only at hop hkey hmask hplen hlo hhi
  subst hkey hmask hplen
  have h1 := firstByte_fields op hop r1 r2 r3 fin
  have h2 := secondByte_127 false
  have h3 := read_write_UInt64BE p.length hhi
  simp only [serializeFrame, header, Option.isSome_none, Bool.false_eq_true, if_false] at *
  rw [if_pos (by omega : p.length ≥ 65536)]
  simp only [writeUInt64BE, readFrame, List.cons_append, List.nil_append] at *
  simp_all [writeUInt64BE]
  rw [if_neg (by omega : ¬ p.length + 1 + 1 + 1 + 1 + 1 + 1 + 1 + 1 < 8)]
  simp

theorem rt_masked_64 (f : Frame) (a b c d : Nat)
    (hop : f.opcode < 16)
    (hkey : f.maskingKey = some [a, b, c, d])
    (hmask : f.isMasked = true)
    (hplen : f.payloadLength = f.payload.length)
    (hlo : 65536 ≤ f.payload.length)
    (hhi : f.payload.length < 2 ^ 64) :
    readFrame (serializeFrame f) = some f := by
  obtain ⟨fin, r1, r2, r3, op, im, pl, mk, p⟩ := f
  simp only at hop hkey hmask hplen hlo hhi
  subst hkey hmask hplen
  have h1 := firstByte_fields op hop r1 r2 r3 fin
  have h2 := secondByte_127 true
  have h3 := read_write_UInt64BE p.length hhi
  have hml := maskBytes_length [a, b, c, d] 0 p
  have hmm := maskBytes_maskBytes [a, b, c, d] 0 p
  have htake : List.take p.length (maskBytes [a, b, c, d] 0 p) = maskBytes [a, b, c, d] 0 p :=
    List.take_of_length_le (le_of_eq hml)
  simp only [serializeFrame, header, Option.isSome_some, if_pos] at *
  rw [hml]
  rw [if_pos (by omega : p.length ≥ 65536)]
  simp only [writeUInt64BE, readFrame, List.cons_append, List.nil_append] at *
  simp_all [decide_not, writeUInt64BE]
  rw [if_neg (by omega : ¬ p.length + 1 + 1 + 1 + 1 + 1 + 1 + 1 + 1 + 1 + 1 + 1 + 1 < 8)]
  simp only []
  rw [if_neg (by rw [hml]; omega : ¬ (maskBytes [a, b, c, d] 0 p).length < p.length)]
  rw [List.take_of_length_le (le_of_eq hml)]
  simp [hmm]

/-- C1: for every payload and every frame built from it (any FIN/RSV flags,
any of the sixteen opcodes, masked with a 4-byte key or unmasked), parsing
the bytes produced by serializing the frame yields the frame back — same
fin flag, rsv bits, opcode, payload length and payload bytes, the masking
XOR cancelling out — across all three payload-length encodings (7-bit for
length ≤ 125, 16-bit big-endian for 126..65535, 64-bit big-endian
for ≥ 65536). -/
theorem readFrame_of_serializeFrame (f : Frame)
    (hop : f.opcode < 16)
    (hmask : f.isMasked = f.maskingKey.isSome)
    (hplen : f.payloadLength = f.payload.length)
    (hkey : ∀ k, f.maskingKey = some k → k.length = 4)
    (hlen : f.payload.length < 2 ^ 64) :
    readFrame (serializeFrame f) = some f := by
  rcases hk : f.maskingKey with _ | k
  · have hm : f.isMasked = false := by rw [hmask, hk]; rfl
    by_cases h125 : f.payload.length ≤ 125
    · exact rt_unmasked_small f hop hk hm hplen h125
    · by_cases h65536 : f.payload.length < 65536
      · exact rt_unmasked_16 f hop hk hm hplen (by omega) h65536
      · exact rt_unmasked_64 f hop hk hm hplen (by omega) hlen
  · have hm : f.isMasked = true := by rw [hmask, hk]; rfl
    have hk4 := hkey k hk
    rcases k with _ | ⟨a, _ | ⟨b, _ | ⟨c, _ | ⟨d, _ | ⟨e, t⟩⟩⟩⟩⟩
    · simp at hk4
    · simp at hk4
    · simp at hk4
    · simp at hk4
    · by_cases h125 : f.payload.length ≤ 125
      · exact rt_masked_small f a b c d hop hk hm hplen h125
      · by_cases h65536 : f.payload.length < 65536
        · exact rt_masked_16 f a b c d hop hk hm hplen (by omega) h65536
        · exact rt_masked_64 f a b c d hop hk hm hplen (by omega) hlen
    · simp at hk4

/-- C1 witness: the round-trip theorem applied to a concrete masked
binary frame with payload `[5, 6, 7]` and masking key `[1, 2, 3, 4]`. -/
theorem readFrame_of_serializeFrame_witness :
    (2 : Nat) < 16 ∧
    readFrame (serializeFrame ⟨true, false, false, false, 2, true, 3,
        some [1, 2, 3, 4], [5, 6, 7]⟩) =
      some ⟨true, false, false, false, 2, true, 3, some [1, 2, 3, 4], [5, 6, 7]⟩ :=
  ⟨by decide,
   readFrame_of_serializeFrame _ (by decide) (by decide) (by decide)
     (fun k hk => by
       have h := Option.some.inj hk
       rw [← h]
       rfl)
     (by decide)⟩

/-- The length of a serialized frame is the payload length plus the header
length that `calcHeaderLength` computes for it. -/
theorem serializeFrame_length (f : Frame) :
    (serializeFrame f).length =
      f.payload.length + calcHeaderLength f.maskingKey f.payload.length := by
  rcases f with ⟨fin, r1, r2, r3, op, im, pl, mk, p⟩
  rcases mk with _ | k
  · simp only [serializeFrame, header, calcHeaderLength, Option.isSome_none,
      Bool.false_eq_true, if_false]
    split_ifs <;> simp [writeUInt16BE, writeUInt64BE]
  · simp only [serializeFrame, header, calcHeaderLength, Option.isSome_some, if_true,
      maskBytes_length]
    split_ifs <;> simp [writeUInt16BE, writeUInt64BE, maskBytes_length]

/-- C4 (amended): for every payload of size n the serialized frame occupies
exactly n + header_len(n, is_masked) bytes, where header_len is 2 when
n ≤ 125, 4 when 126 ≤ n ≤ 65535, and 10 (not 8) when n ≥ 65536, plus 4
additional bytes when the frame is masked. -/
theorem serializeFrame_length_headerLen (f : Frame) :
    (serializeFrame f).length =
      f.payload.length +
        ((if f.payload.length ≥ 65536 then 10
          else if f.payload.length > 125 then 4 else 2) +
          (if f.maskingKey.isSome then 4 else 0)) := by
  rw [serializeFrame_length]
  unfold calcHeaderLength
  split_ifs <;> omega

/-- An unmasked binary frame with a 65536-byte payload. -/
def frame65536 : Frame :=
  ⟨true, false, false, false, 2, false, 65536, none, List.replicate 65536 0⟩

/-- C4 counterexample: at payload size 65536 (unmasked) the serialized
frame is 65546 = 65536 + 10 bytes, not 65536 + 8 as the claim's
header_len table (2/4/8) states. -/
theorem serializeFrame_length_not_claimed_at_65536 :
    (serializeFrame frame65536).length = 65536 + 10 ∧
    (serializeFrame frame65536).length ≠ 65536 + 8 := by
  rw [serializeFrame_length]
  have h1 : frame65536.payload.length = 65536 := by
    simp only [frame65536, List.length_replicate]
  have h2 : frame65536.maskingKey = none := rfl
  rw [h1, h2]
  simp [calcHeaderLength]

/-! ## permessage-deflate: outgoing message hook

The zlib raw-deflate stream is external to the repository; its output for
a given input is abstracted as a function `compress`.  The per-connection
persistent stream is represented by an `Option Nat` handle; the returned
`Bool` records whether this call instantiated a fresh stream (either the
per-message stream of the no-context-takeover mode or the lazily created
persistent one). -/

/-- `processOutgoingMessage` of the permessage-deflate extension: empty
messages are passed through untouched; otherwise the payload is deflated
(`compress`), the 4-byte `0x00 0x00 0xFF 0xFF` sync-flush tail is dropped
(`Math.max(0, total - 4)` is truncated `Nat` subtraction), and `isRsv1`
is set on the message. -/
def processOutgoingMessage (isRoleOfServer client_no_context_takeover
    server_no_context_takeover : Bool) (compress : List Nat → List Nat)
    (deflate : Option Nat) (f : Frame) : Frame × Option Nat × Bool :=
  let useNewDeflate := (!isRoleOfServer && client_no_context_takeover)
    || (isRoleOfServer && server_no_context_takeover)
  if f.payloadLength = 0 then (f, deflate, false)
  else
    let streamState : Option Nat × Bool :=
      if useNewDeflate then (deflate, true)
      else
        match deflate with
        | none => (some 0, true)
        | some d => (some d, false)
    let out := compress f.payload
    let outLen := out.length - 4
    ({ f with isRsv1 := true, payloadLength := outLen, payload := out.take outLen },
     streamState.1, streamState.2)

/-- C10: for every outgoing message whose payloadLength is 0 the
permessage-deflate `processOutgoingMessage` hook returns the message
unchanged — `isRsv1` is not set, the payload is not compressed, the
persistent deflate stream is untouched and no fresh stream is created —
so empty messages are sent uncompressed even when compression was
negotiated. -/
theorem processOutgoingMessage_empty_passthrough (isRoleOfServer
    client_no_context_takeover server_no_context_takeover : Bool)
    (compress : List Nat → List Nat) (deflate : Option Nat) (f : Frame)
    (h : f.payloadLength = 0) :
    processOutgoingMessage isRoleOfServer client_no_context_takeover
      server_no_context_takeover compress deflate f = (f, deflate, false) := by
  unfold processOutgoingMessage
  rw [if_pos h]

/-- C10 witness: an empty text message passes through the outgoing hook
unchanged for a server-role context with context takeover and a live
persistent stream. -/
theorem processOutgoingMessage_empty_passthrough_witness :
    (⟨true, false, false, false, 1, false, 0, none, []⟩ : Frame).payloadLength = 0 ∧
    processOutgoingMessage true false false (fun p => p ++ [0, 0, 255, 255]) (some 7)
        ⟨true, false, false, false, 1, false, 0, none, []⟩ =
      (⟨true, false, false, false, 1, false, 0, none, []⟩, some 7, false) :=
  ⟨rfl, processOutgoingMessage_empty_passthrough true false false _ (some 7) _ rfl⟩

/-! ## The outgoing send pipeline (`sendFrames`) -/

/-- The `outFrame` defaults of `sendFrames`: FIN set (unless the caller
sends a non-final fragment), no RSV bits, `isMasked := isClient`, no
masking key yet, and `payloadLength` the byte length of the payload. -/
def mkOutFrame (isClient : Bool) (opcode : Nat) (payload : List Nat)
    (isFin : Bool) : Frame :=
  { isFin := isFin, isRsv1 := false, isRsv2 := false, isRsv3 := false,
    opcode := opcode, isMasked := isClient, payloadLength := payload.length,
    maskingKey := none, payload := payload }

/-- The `masking()` step of `sendFrames`: a masked frame without a key
receives the four freshly drawn `crypto.randomBytes(4)` bytes, and a frame
with a key has its payload XOR-masked; an unmasked frame passes through. -/
def maskingStep (randomBytes4 : List Nat) (f : Frame) : Frame :=
  let f := if f.isMasked = true ∧ f.maskingKey = none then
    { f with maskingKey := some randomBytes4 } else f
  match f.maskingKey with
  | none => f
  | some k => { f with payload := maskBytes k 0 f.payload }

/-- On a frame without a preset key, `masking()` draws the fresh key and
masks exactly when the frame's mask bit is set. -/
theorem maskingStep_spec (randomBytes4 : List Nat) (f : Frame)
    (hkey : f.maskingKey = none) :
    maskingStep randomBytes4 f =
      if f.isMasked = true then
        { f with maskingKey := some randomBytes4,
                 payload := maskBytes randomBytes4 0 f.payload }
      else f := by
  obtain ⟨fin, r1, r2, r3, op, im, pl, mk, p⟩ := f
  simp only at hkey
  subst hkey
  cases im <;> simp [maskingStep]

/-- The `sendFrames` pipeline for one frame (the extension's optional
`mask`/`processOutgoingFrame` hooks are absent in permessage-deflate, so
masking is the XOR loop): build the `outFrame`, run the outgoing-message
hook for data opcodes (< 3), then mask. -/
def sendFramesPipeline (isClient : Bool) (randomBytes4 : List Nat)
    (pmdRole pmdCNct pmdSNct : Bool) (compress : List Nat → List Nat)
    (deflate : Option Nat) (opcode : Nat) (payload : List Nat) (isFin : Bool) :
    Frame × Option Nat :=
  let f := mkOutFrame isClient opcode payload isFin
  let step1 : Frame × Option Nat × Bool :=
    if opcode < 3 then
      processOutgoingMessage pmdRole pmdCNct pmdSNct compress deflate f
    else (f, deflate, false)
  (maskingStep randomBytes4 step1.1, step1.2.1)

/-- The outgoing-message hook never touches the mask bit or the masking
key of the message. -/
theorem processOutgoingMessage_mask_invariant (pr pc ps : Bool)
    (compress : List Nat → List Nat) (deflate : Option Nat) (f : Frame) :
    (processOutgoingMessage pr pc ps compress deflate f).1.isMasked = f.isMasked ∧
    (processOutgoingMessage pr pc ps compress deflate f).1.maskingKey = f.maskingKey := by
  unfold processOutgoingMessage
  split_ifs <;> simp

/-- C2: every frame produced by the send pipeline (`send`, `sendPing`,
`sendPong` and the Close frame all funnel into `sendFrames` without
presetting a masking key) has `isMasked = isClient`; in the Client role it
carries exactly the four freshly drawn random bytes as its masking key and
its payload is the XOR-masking of the (possibly compressed) message
payload, while in the Server role it has no masking key and its payload is
left unmasked. -/
theorem sendFrames_masking_by_role (isClient : Bool) (randomBytes4 : List Nat)
    (hrng : randomBytes4.length = 4) (pmdRole pmdCNct pmdSNct : Bool)
    (compress : List Nat → List Nat) (deflate : Option Nat)
    (opcode : Nat) (payload : List Nat) (isFin : Bool) :
    (sendFramesPipeline isClient randomBytes4 pmdRole pmdCNct pmdSNct compress
        deflate opcode payload isFin).1.isMasked = isClient ∧
    (isClient = true →
      (sendFramesPipeline isClient randomBytes4 pmdRole pmdCNct pmdSNct compress
          deflate opcode payload isFin).1.maskingKey = some randomBytes4 ∧
      (sendFramesPipeline isClient randomBytes4 pmdRole pmdCNct pmdSNct compress
          deflate opcode payload isFin).1.payload =
        maskBytes randomBytes4 0
          (if opcode < 3 then
            (processOutgoingMessage pmdRole pmdCNct pmdSNct compress deflate
              (mkOutFrame isClient opcode payload isFin)).1.payload
           else payload)) ∧
    (isClient = false →
      (sendFramesPipeline isClient randomBytes4 pmdRole pmdCNct pmdSNct compress
          deflate opcode payload isFin).1.maskingKey = none) := by
  have hinv := processOutgoingMessage_mask_invariant pmdRole pmdCNct pmdSNct
    compress deflate (mkOutFrame isClient opcode payload isFin)
  by_cases hop : opcode < 3
  · have hkey : (processOutgoingMessage pmdRole pmdCNct pmdSNct compress deflate
        (mkOutFrame isClient opcode payload isFin)).1.maskingKey = none := by
      rw [hinv.2]; rfl
    have hmask : (processOutgoingMessage pmdRole pmdCNct pmdSNct compress deflate
        (mkOutFrame isClient opcode payload isFin)).1.isMasked = isClient := by
      rw [hinv.1]; rfl
    simp only [sendFramesPipeline, if_pos hop, maskingStep_spec _ _ hkey, hmask]
    cases isClient <;> simp_all
  · have hkey : (mkOutFrame isClient opcode payload isFin).maskingKey = none := rfl
    have hmask : (mkOutFrame isClient opcode payload isFin).isMasked = isClient := rfl
    simp only [sendFramesPipeline, if_neg hop, maskingStep_spec _ _ hkey, hmask]
    cases isClient <;> simp [mkOutFrame]

/-- C2 witness: a client-role ping frame gets masked with the drawn key
and a server-role ping frame stays unmasked. -/
theorem sendFrames_masking_by_role_witness :
    ([9, 9, 9, 9] : List Nat).length = 4 ∧
    (sendFramesPipeline true [9, 9, 9, 9] false false false id none 9 [1, 2] true).1.maskingKey =
      some [9, 9, 9, 9] ∧
    (sendFramesPipeline false [9, 9, 9, 9] true false false id none 9 [1, 2] true).1.isMasked =
      false :=
  ⟨rfl,
   ((sendFrames_masking_by_role true [9, 9, 9, 9] rfl false false false id none
      9 [1, 2] true).2.1 rfl).1,
   (sendFrames_masking_by_role false [9, 9, 9, 9] rfl true false false id none
      9 [1, 2] true).1⟩

/-! ## Close frame payload (`sendClosingHandshake`) -/

/-- The close-frame payload built by `sendClosingHandshake`: the UTF-8
reason truncated to 125 bytes (`reason.subarray(0, 125)`), prefixed with
the 2-byte big-endian close code. -/
def sendClosingHandshakePayload (code : Nat) (reason : List Nat) : List Nat :=
  let reason := if reason.length > 125 then reason.take 125 else reason
  writeUInt16BE code ++ reason

/-- The close payload is 2 bytes of code plus up to 125 reason bytes. -/
theorem sendClosingHandshakePayload_length (code : Nat) (reason : List Nat) :
    (sendClosingHandshakePayload code reason).length = 2 + min reason.length 125 := by
  unfold sendClosingHandshakePayload writeUInt16BE
  split_ifs <;> simp [List.length_take] <;> omega

/-- C8: at a 126-byte reason the close payload built by the code is
2 + 125 = 127 bytes, exceeding the 125-byte control-frame limit — the
source truncates the reason to 125 bytes where RFC 6455 (and the claim)
require 123. -/
theorem sendClosingHandshakePayload_overlong :
    (sendClosingHandshakePayload 1000 (List.replicate 126 97)).length = 127 ∧
    125 < (sendClosingHandshakePayload 1000 (List.replicate 126 97)).length := by
  rw [sendClosingHandshakePayload_length]
  simp only [List.length_replicate]
  omega

/-! ## permessage-deflate: incoming message hook

The raw-inflate stream is external; the chunk sequence it emits for
`payload ++ [0x00, 0x00, 0xFF, 0xFF]` is abstracted as the `inflated`
argument.  The `onData`/`onFlush` bookkeeping around it — the running
`total`, the cap check and the final concatenation — is embedded from the
source. -/

/-- Default `maxDecompressSize` of `createPermessageDeflate`:
16 MiB. -/
def maxDecompressSizeDefault : Nat := 16 * 1024 * 1024

/-- The `onData` accumulation loop of `processIncomingMessage`: for every
decompressed chunk, `total += chunk.length`; when the running total
exceeds `maxDecompressSize` the message errors out, otherwise the chunk is
collected; `onFlush` then reports the total and the collected chunks. -/
def inflateAccum (maxDecompressSize : Nat) (total : Nat)
    (chunks : List (List Nat)) : List (List Nat) → Except String (Nat × List (List Nat))
  | [] => .ok (total, chunks)
  | c :: rest =>
    let total1 := total + c.length
    if total1 > maxDecompressSize then
      .error "permessage-deflate: decompressed message too large"
    else inflateAccum maxDecompressSize total1 (chunks ++ [c]) rest

/-- `processIncomingMessage` of the permessage-deflate extension: a
message without RSV1, or with an empty payload, passes through; otherwise
the inflated output is accumulated under the cap and the frame's payload
is replaced by the concatenation of the collected chunks. -/
def processIncomingMessage (maxDecompressSize : Nat) (f : Frame)
    (inflated : List (List Nat)) : Except String Frame :=
  if f.isRsv1 = false then .ok f
  else if f.payloadLength = 0 then .ok f
  else
    match inflateAccum maxDecompressSize 0 [] inflated with
    | .error e => .error e
    | .ok (total, chunks) =>
      .ok { f with payloadLength := total, payload := chunks.flatten }

theorem inflateAccum_ok (cap : Nat) (chunks : List (List Nat)) :
    ∀ (total : Nat) (acc : List (List Nat)),
    total + (chunks.map List.length).sum ≤ cap →
    inflateAccum cap total acc chunks =
      .ok (total + (chunks.map List.length).sum, acc ++ chunks) := by
  induction chunks with
  | nil => intro total acc h; simp [inflateAccum]
  | cons c rest ih =>
    intro total acc h
    simp only [List.map_cons, List.sum_cons] at h
    unfold inflateAccum
    rw [if_neg (by omega)]
    rw [ih (total + c.length) (acc ++ [c]) (by omega)]
    simp
    omega

theorem inflateAccum_overflow (cap : Nat) (chunks : List (List Nat)) :
    ∀ (total : Nat) (acc : List (List Nat)),
    total ≤ cap →
    cap < total + (chunks.map List.length).sum →
    inflateAccum cap total acc chunks =
      .error "permessage-deflate: decompressed message too large" := by
  induction chunks with
  | nil => intro total acc ht h; simp at h; omega
  | cons c rest ih =>
    intro total acc ht h
    simp only [List.map_cons, List.sum_cons] at h
    unfold inflateAccum
    by_cases hc : total + c.length > cap
    · rw [if_pos hc]
    · rw [if_neg hc]
      exact ih (total + c.length) (acc ++ [c]) (by omega) (by omega)

/-- C3: for every incoming message whose opening frame has RSV1 set (and a
non-empty compressed payload), the permessage-deflate incoming path fails
with the decompressed-message-too-large error exactly when the cumulative
decompressed output exceeds `maxDecompressSize` (whose configured default
is 16 MiB = 16 * 1024 * 1024 bytes); when the cumulative output stays at
or below the cap, decompression succeeds and returns the concatenated
inflated payload. -/
theorem processIncomingMessage_cap (cap : Nat) (f : Frame)
    (inflated : List (List Nat))
    (hrsv : f.isRsv1 = true) (hpl : f.payloadLength ≠ 0) :
    (cap < (inflated.map List.length).sum →
      processIncomingMessage cap f inflated =
        .error "permessage-deflate: decompressed message too large") ∧
    ((inflated.map List.length).sum ≤ cap →
      processIncomingMessage cap f inflated =
        .ok { f with payloadLength := (inflated.map List.length).sum,
                     payload := inflated.flatten }) ∧
    maxDecompressSizeDefault = 16 * 1024 * 1024 := by
  refine ⟨fun hover => ?_, fun hunder => ?_, rfl⟩
  · unfold processIncomingMessage
    rw [if_neg (by simp [hrsv]), if_neg hpl]
    rw [inflateAccum_overflow cap inflated 0 [] (Nat.zero_le cap) (by omega)]
  · unfold processIncomingMessage
    rw [if_neg (by simp [hrsv]), if_neg hpl]
    rw [inflateAccum_ok cap inflated 0 [] (by omega)]
    simp

/-- C3 witness: with the cap set to 3, the two inflated chunks
`[1, 2]` and `[3, 4]` (cumulative 4 > 3) abort with the
message-too-large error. -/
theorem processIncomingMessage_cap_witness :
    (⟨true, true, false, false, 2, false, 2, none, [80, 81]⟩ : Frame).isRsv1 = true ∧
    processIncomingMessage 3 ⟨true, true, false, false, 2, false, 2, none, [80, 81]⟩
        [[1, 2], [3, 4]] =
      .error "permessage-deflate: decompressed message too large" :=
  ⟨rfl,
   (processIncomingMessage_cap 3 _ [[1, 2], [3, 4]] rfl (by decide)).1 (by decide)⟩

/-! ## Heartbeat

The heartbeat machinery of the connection is a small timer state machine:
`heartbeat()` (no callback) re-arms the periodic `check`; `check` polls
socket writability, sends the Ping and arms the heartbeat timeout; the
Pong branch of `frameHandling` measures the round trip and calls
`heartbeat()` again, cancelling the timeout.  Wall-clock instants are
explicit `now` parameters (`performance.now()`). -/

/-- A timer armed by the heartbeat machinery: the periodic `check` timer,
the 500 ms socket-poll retry, or the heartbeat timeout whose expiry will
invoke `close(1006, 'Heartbeat timeout.')`. -/
inductive HeartbeatTimer
  | intervalCheck (delay_ms : Nat)
  | retryCheck (delay_ms : Nat)
  | brokenClose (delay_ms : Nat)
  deriving Repr, DecidableEq

/-- Connection state relevant to the heartbeat: the armed timer, the
`pingStartTime` (0 when no ping round trip is outstanding, the source's
sentinel) and the last measured `latency_ms`. -/
structure HeartbeatState where
  heartbeatTimeout : Option HeartbeatTimer
  pingStartTime : Nat
  latency_ms : Nat
  deriving Repr, DecidableEq

/-- `heartbeat()` without a callback: `clearTimeout(heartbeatTimeout)` and,
when `heartbeatInterval_ms > 0`, re-arm the periodic `check`. -/
def heartbeatRearm (heartbeatInterval_ms : Nat) (s : HeartbeatState) : HeartbeatState :=
  { s with heartbeatTimeout :=
      if heartbeatInterval_ms > 0 then
        some (.intervalCheck heartbeatInterval_ms)
      else none }

/-- `check()`: when the socket is not writable, poll again in 500 ms;
otherwise clear the timer, send the Ping — recording
`pingStartTime = performance.now()` — and arm the heartbeat timeout of
`Math.max(heartbeatInterval_ms * 2, 30000)` milliseconds. -/
def heartbeatCheck (heartbeatInterval_ms now : Nat) (socketWritable : Bool)
    (s : HeartbeatState) : HeartbeatState :=
  if socketWritable = false then
    { s with heartbeatTimeout := some (.retryCheck 500) }
  else
    { s with pingStartTime := now,
             heartbeatTimeout :=
               some (.brokenClose (max (heartbeatInterval_ms * 2) 30000)) }

/-- The `close(code, reason)` call performed when the heartbeat timeout
expires uncancelled. -/
def heartbeatTimeoutAction : Nat × String := (1006, "Heartbeat timeout.")

/-- The Pong branch of `frameHandling` (`case 10`): when a ping round trip
is outstanding (`pingStartTime ≠ 0`), set
`latency_ms = performance.now() - pingStartTime`, clear `pingStartTime`
and run `heartbeat()`, which cancels the armed heartbeat timeout and
re-arms the periodic check. -/
def pongHandling (heartbeatInterval_ms now : Nat) (s : HeartbeatState) : HeartbeatState :=
  if s.pingStartTime ≠ 0 then
    heartbeatRearm heartbeatInterval_ms
      { s with latency_ms := now - s.pingStartTime, pingStartTime := 0 }
  else s

/-- C5 (amended): whenever heartbeat_interval > 0 and the heartbeat check
fires a Ping (socket writable), a heartbeat timeout of exactly
max(2 * heartbeat_interval, 30000 ms) is armed; a matching Pong cancels
that timeout (the armed timer reverts to the periodic check) and sets
latency to the measured round-trip time; and if the timeout expires
uncancelled the connection invokes close(1006, "Heartbeat timeout.") —
the source's reason string, where the claim said "heartbeat timeout". -/
theorem heartbeat_timeout_lifecycle (heartbeatInterval_ms now now2 : Nat)
    (s : HeartbeatState)
    (hint : 0 < heartbeatInterval_ms) (hnow : now ≠ 0) :
    (heartbeatCheck heartbeatInterval_ms now true s).heartbeatTimeout =
      some (.brokenClose (max (2 * heartbeatInterval_ms) 30000)) ∧
    (pongHandling heartbeatInterval_ms now2
        (heartbeatCheck heartbeatInterval_ms now true s)).heartbeatTimeout =
      some (.intervalCheck heartbeatInterval_ms) ∧
    (pongHandling heartbeatInterval_ms now2
        (heartbeatCheck heartbeatInterval_ms now true s)).latency_ms = now2 - now ∧
    heartbeatTimeoutAction = (1006, "Heartbeat timeout.") := by
  unfold heartbeatCheck pongHandling heartbeatRearm heartbeatTimeoutAction
  simp [hnow, Nat.mul_comm, if_pos hint]

/-- C5 witness: interval 50 ms, ping sent at t = 10, pong received at
t = 17 — the timeout armed is 30000 ms (max(100, 30000)), the pong cancels
it and the measured latency is 7 ms. -/
theorem heartbeat_timeout_lifecycle_witness :
    (0 : Nat) < 50 ∧ (10 : Nat) ≠ 0 ∧
    (heartbeatCheck 50 10 true ⟨none, 0, 0⟩).heartbeatTimeout =
      some (.brokenClose (max (2 * 50) 30000)) ∧
    (pongHandling 50 17 (heartbeatCheck 50 10 true ⟨none, 0, 0⟩)).latency_ms = 7 :=
  ⟨by decide, by decide,
   (heartbeat_timeout_lifecycle 50 10 17 ⟨none, 0, 0⟩ (by decide) (by decide)).1,
   (heartbeat_timeout_lifecycle 50 10 17 ⟨none, 0, 0⟩ (by decide) (by decide)).2.2.1⟩

/-- C5 counterexample: the reason string actually placed in the close call
is "Heartbeat timeout.", not "heartbeat timeout" as the claim quotes. -/
theorem heartbeat_timeout_reason_differs :
    heartbeatTimeoutAction = (1006, "Heartbeat timeout.") ∧
    heartbeatTimeoutAction ≠ (1006, "heartbeat timeout") := by
  constructor
  · rfl
  · intro h
    have h2 := congrArg Prod.snd h
    rw [heartbeatTimeoutAction] at h2
    simp only at h2
    exact absurd h2 (by decide)

/-! ## readyState transitions of the close handshake -/

/-- The `readyState` assignments performed synchronously by
`close(code, reason)`: code 1001 (going away) forces `CLOSED`; a
connection in `OPEN` sends the closing handshake and is set directly to
`CLOSED`; in `CLOSING` and `CLOSED` the state is left unchanged, as it is
on the abnormal path (the deferred `end` callbacks do not assign
`readyState`). -/
def closeReadyState (readyState code : Nat) : Nat :=
  let readyState := if code = 1001 then 3 else readyState
  if readyState = 1 then 3
  else readyState

/-- The Close-frame branch of `frameHandling` (`case 8`): while `OPEN` the
state is set to `CLOSING` before `close(code, reason)` runs (and the close
is marked clean); in any other state it is set to `CLOSED` first. -/
def peerCloseReadyStateBefore (readyState : Nat) : Nat :=
  if readyState = 1 then 2 else 3

/-- The state after the peer-close branch has also run its synchronous
`close(code, reason)` call. -/
def peerCloseReadyStateAfter (readyState code : Nat) : Nat :=
  closeReadyState (peerCloseReadyStateBefore readyState) code

/-- C9 (amended): a peer Close frame received while ready_state is Open
(1) moves the connection to Closing (2) before close() runs, and for close
codes other than 1001 it is still Closing when the synchronous part of
close() returns, reaching Closed (3) only later; a local close(code,
reason) invoked while Open, however, sets ready_state directly to Closed,
eliding the Closing state. -/
theorem close_handshake_states (code : Nat) (hcode : code ≠ 1001) :
    peerCloseReadyStateBefore 1 = 2 ∧
    peerCloseReadyStateAfter 1 code = 2 ∧
    closeReadyState 1 code = 3 := by
  unfold peerCloseReadyStateAfter peerCloseReadyStateBefore closeReadyState
  simp [hcode]

/-- C9 witness: with the normal-closure code 1000, a peer Close while Open
leaves the state at Closing after close() runs, and a local close() from
Open lands directly on Closed. -/
theorem close_handshake_states_witness :
    (1000 : Nat) ≠ 1001 ∧
    peerCloseReadyStateAfter 1 1000 = 2 ∧
    closeReadyState 1 1000 = 3 :=
  ⟨by decide,
   (close_handshake_states 1000 (by decide)).2.1,
   (close_handshake_states 1000 (by decide)).2.2⟩

/-- C9 counterexample: close(1000, reason) invoked while ready_state is
Open sets the state to 3 (Closed), not 2 (Closing) as the claim states —
the local close path steps directly from Open to Closed. -/
theorem close_from_open_skips_closing :
    closeReadyState 1 1000 = 3 ∧ closeReadyState 1 1000 ≠ 2 := by
  constructor <;> decide

/-! ## Server accept path (`isRoleOfServer`)

JavaScript string methods (`split`, `trim`, `toLowerCase`, `includes`,
`startsWith`, `replaceAll`) are host-runtime primitives; they are modelled
here by structurally recursive functions over `List Char`. -/

/-- `String.prototype.split` on a one-character separator. -/
def splitChar (sep : Char) : List Char → List (List Char)
  | [] => [[]]
  | c :: rest =>
    let r := splitChar sep rest
    if c = sep then [] :: r
    else (c :: r.headD []) :: r.tail

/-- The whitespace stripped by `String.prototype.trim`. -/
def isJsSpace (c : Char) : Bool :=
  c = ' ' || c = '\t' || c = '\n' || c = '\r'

/-- `String.prototype.trim`. -/
def trimChars (s : List Char) : List Char :=
  ((s.dropWhile isJsSpace).reverse.dropWhile isJsSpace).reverse

/-- `String.prototype.includes` (substring containment). -/
def containsSub (needle : List Char) : List Char → Bool
  | [] => needle.isEmpty
  | c :: rest => needle.isPrefixOf (c :: rest) || containsSub needle rest

/-- `String.prototype.includes` on strings. -/
def strIncludes (s sub : String) : Bool := containsSub sub.toList s.toList

/-- Lookup on the lower-cased request-header map (`headers[k]`). -/
def hget (headers : List (String × String)) (k : String) : Option String :=
  (headers.find? (fun p => p.1 = k)).map (fun p => p.2)

/-- JavaScript truthiness of a header value: present and non-empty. -/
def truthy (v : Option String) : Bool :=
  match v with
  | none => false
  | some s => !s.isEmpty

/-- Comma-separated protocol list: split, trim, lower-case — as both the
offered and the supported protocol lists are prepared in the source. -/
def splitProtocols (s : String) : List (List Char) :=
  (splitChar ',' s.toList).map (fun e => (trimChars e).map Char.toLower)

/-- `isRoleOfServer` of the server accept path: requires a socket, a
`sec-websocket-version` header equal to `'13'` and a truthy
`sec-websocket-key`; when a protocol is configured and offered, the first
offered token among the supported ones is selected (none matching rejects
the upgrade); when an origin is configured and the `origin` header does
not equal it, the request `host` must occur inside the configured origin
(`origin.indexOf(host) !== -1`).  The `Upgrade` and `Connection` request
headers are never inspected. -/
def isRoleOfServer (hasSocket : Bool) (headers : List (String × String))
    (protocol origin : String) : Bool :=
  if hasSocket = false then false
  else if hget headers "sec-websocket-version" ≠ some "13" then false
  else if truthy (hget headers "sec-websocket-key") = false then false
  else
    let protocolOk :=
      if protocol ≠ "" ∧ truthy (hget headers "sec-websocket-protocol") = true then
        let offerProtocols := splitProtocols ((hget headers "sec-websocket-protocol").getD "")
        let supportedProtocols := splitProtocols protocol
        let selected := (offerProtocols.find? (fun e => supportedProtocols.contains e)).getD []
        decide (selected ≠ [])
      else true
    if protocolOk = false then false
    else if origin ≠ "" ∧ hget headers "origin" ≠ some origin then
      if truthy (hget headers "host") = false then false
      else if containsSub ((hget headers "host").getD "").toList origin.toList = false then false
      else true
    else true

/-- C6 (amended): with no configured sub-protocol or origin restriction,
the server accept path upgrades exactly when `Sec-WebSocket-Version`
equals '13' and `Sec-WebSocket-Key` is present and non-empty; the
`Upgrade` and `Connection` request headers are not consulted, so a request
missing them is still upgraded. -/
theorem isRoleOfServer_required_headers (headers : List (String × String)) :
    isRoleOfServer true headers "" "" =
      (decide (hget headers "sec-websocket-version" = some "13") &&
       truthy (hget headers "sec-websocket-key")) := by
  unfold isRoleOfServer
  by_cases hv : hget headers "sec-websocket-version" = some "13" <;>
    by_cases hk : truthy (hget headers "sec-websocket-key") = true <;>
    simp [hv, hk]

/-- C6 counterexample: a request carrying only
`Sec-WebSocket-Version: 13` and `Sec-WebSocket-Key: x` — with no `Upgrade`
and no `Connection` header at all — is upgraded, refuting the claim that a
request missing any of the four headers is not upgraded. -/
theorem isRoleOfServer_ignores_upgrade_connection :
    isRoleOfServer true
        [("sec-websocket-version", "13"), ("sec-websocket-key", "x")] "" "" = true ∧
    hget [("sec-websocket-version", "13"), ("sec-websocket-key", "x")] "upgrade" = none ∧
    hget [("sec-websocket-version", "13"), ("sec-websocket-key", "x")] "connection" = none := by
  refine ⟨?_, by decide, by decide⟩
  decide

/-! ## permessage-deflate negotiation (`generateResponse`) -/

/-- `windowBits.Z_MAX_WINDOWBITS`. -/
def Z_MAX_WINDOWBITS : Int := 15

/-- `windowBits.Z_MIN_WINDOWBITS`. -/
def Z_MIN_WINDOWBITS : Int := 8

/-- The integer value of a digit string. -/
def digitsVal (s : List Char) : Int :=
  s.foldl (fun acc c => acc * 10 + Int.ofNat (c.toNat - 48)) 0

/-- JS `Number(str)` on the parameter values occurring in an extension
offer: the empty string is 0, an (optionally negated) decimal integer is
its value, and anything else (the NaN cases; fractional values are outside
the model) is `none`. -/
def jsNumberChars (s : List Char) : Option Int :=
  match s with
  | [] => some 0
  | c :: rest =>
    if c = '-' then
      if rest ≠ [] ∧ rest.all Char.isDigit then some (-(digitsVal rest)) else none
    else if (c :: rest).all Char.isDigit then some (digitsVal (c :: rest))
    else none

/-- `asValidWindowBits`: clamp a (finite) numeric value to [8, 15]. -/
def asValidWindowBits (v : Int) : Int :=
  min Z_MAX_WINDOWBITS (max Z_MIN_WINDOWBITS v)

/-- `get_max_window_bits(prefix, offer)`: find the
`<prefix>_max_window_bits` parameter among the `;`-separated items of the
offer, parse its (possibly double-quoted) value with `Number`, and clamp
to [8, 15]; an absent parameter or a non-numeric value yields 15. -/
def get_max_window_bits (pfx : String) (offer : List Char) : Int :=
  let items := (splitChar ';' offer).map trimChars
  match items.find? (fun v => (pfx.toList ++ "_max_window_bits".toList).isPrefixOf v) with
  | none => Z_MAX_WINDOWBITS
  | some it =>
    let parts := (splitChar '=' it).map trimChars
    let val := (parts.getD 1 []).filter (fun c => c ≠ Char.ofNat 34)
    match jsNumberChars val with
    | none => Z_MAX_WINDOWBITS
    | some num => min Z_MAX_WINDOWBITS (max Z_MIN_WINDOWBITS num)

/-- The negotiation outcome recorded by `generateResponse` (the emitted
`Sec-WebSocket-Extensions` response value lists exactly these). -/
structure NegotiatedParams where
  client_no_context_takeover : Bool
  server_no_context_takeover : Bool
  val_client_max_window_bits : Int
  val_server_max_window_bits : Int
  deriving Repr, DecidableEq

/-- `generateResponse` on the server: when the request's
`sec-websocket-extensions` header contains a `permessage-deflate` offer,
OR the local `noContextTakeover` configuration with the peer's offered
flags, and negotiate each window-bits direction as
`min(requested, configured)`; without an offer no parameters are produced
(`callback()` with no value). -/
def generateResponse (noContextTakeover : Bool) (maxWindowBits : Int)
    (extHeader : Option String) : Option NegotiatedParams :=
  match extHeader with
  | some h =>
    if strIncludes h "permessage-deflate" then
      match ((splitChar ',' h.toList).map trimChars).find?
          (fun v => "permessage-deflate".toList.isPrefixOf v) with
      | some offer =>
        let cnct := noContextTakeover || containsSub "client_no_context_takeover".toList offer
        let snct := noContextTakeover || containsSub "server_no_context_takeover".toList offer
        let req_client_bits := asValidWindowBits (get_max_window_bits "client" offer)
        let req_server_bits := asValidWindowBits (get_max_window_bits "server" offer)
        some ⟨cnct, snct,
          min req_client_bits (asValidWindowBits maxWindowBits),
          min req_server_bits (asValidWindowBits maxWindowBits)⟩
      | none => none
    else none
  | none => none

/-- The clamp always lands in [8, 15]. -/
theorem asValidWindowBits_bounds (v : Int) :
    8 ≤ asValidWindowBits v ∧ asValidWindowBits v ≤ 15 := by
  unfold asValidWindowBits Z_MAX_WINDOWBITS Z_MIN_WINDOWBITS
  omega

/-- C7: whenever the server's `generateResponse` accepts a
permessage-deflate offer, the negotiated window bits of each direction are
min(offered, configured) — both sides passed through the [8, 15] clamp —
each `no_context_takeover` flag is the OR of the local configuration and
the peer's offered flag, and every negotiated window-bits value lies in
[8, 15]. -/
theorem generateResponse_negotiation (noContextTakeover : Bool)
    (maxWindowBits : Int) (h : String) (r : NegotiatedParams)
    (hr : generateResponse noContextTakeover maxWindowBits (some h) = some r) :
    ∃ offer, ((splitChar ',' h.toList).map trimChars).find?
        (fun v => "permessage-deflate".toList.isPrefixOf v) = some offer ∧
      r.client_no_context_takeover =
        (noContextTakeover || containsSub "client_no_context_takeover".toList offer) ∧
      r.server_no_context_takeover =
        (noContextTakeover || containsSub "server_no_context_takeover".toList offer) ∧
      r.val_client_max_window_bits =
        min (asValidWindowBits (get_max_window_bits "client" offer))
          (asValidWindowBits maxWindowBits) ∧
      r.val_server_max_window_bits =
        min (asValidWindowBits (get_max_window_bits "server" offer))
          (asValidWindowBits maxWindowBits) ∧
      8 ≤ r.val_client_max_window_bits ∧ r.val_client_max_window_bits ≤ 15 ∧
      8 ≤ r.val_server_max_window_bits ∧ r.val_server_max_window_bits ≤ 15 := by
  unfold generateResponse at hr
  dsimp only at hr
  by_cases hinc : strIncludes h "permessage-deflate" = true
  · rw [if_pos hinc] at hr
    rcases hfind : ((splitChar ',' h.toList).map trimChars).find?
        (fun v => "permessage-deflate".toList.isPrefixOf v) with _ | offer
    · rw [hfind] at hr; exact absurd hr (by simp)
    · rw [hfind] at hr
      refine ⟨offer, rfl, ?_⟩
      have hc := asValidWindowBits_bounds (get_max_window_bits "client" offer)
      have hs := asValidWindowBits_bounds (get_max_window_bits "server" offer)
      have hm := asValidWindowBits_bounds maxWindowBits
      obtain ⟨rfl⟩ : r = _ := (Option.some.inj hr).symm
      refine ⟨rfl, rfl, rfl, rfl, ?_, ?_, ?_, ?_⟩ <;> simp <;> omega
  · rw [if_neg hinc] at hr; exact absurd hr (by simp)

/-- C7 witness: the offer `permessage-deflate; client_max_window_bits=10`
against a server configured with maxWindowBits 15 and context takeover
negotiates client bits 10, server bits 15, both flags off. -/
theorem generateResponse_negotiation_witness :
    generateResponse false 15 (some "permessage-deflate; client_max_window_bits=10") =
      some ⟨false, false, 10, 15⟩ ∧
    ∃ offer, ((splitChar ',' "permessage-deflate; client_max_window_bits=10".toList).map
        trimChars).find? (fun v => "permessage-deflate".toList.isPrefixOf v) = some offer ∧
      (⟨false, false, 10, 15⟩ : NegotiatedParams).client_no_context_takeover =
        (false || containsSub "client_no_context_takeover".toList offer) ∧
      (⟨false, false, 10, 15⟩ : NegotiatedParams).server_no_context_takeover =
        (false || containsSub "server_no_context_takeover".toList offer) ∧
      (⟨false, false, 10, 15⟩ : NegotiatedParams).val_client_max_window_bits =
        min (asValidWindowBits (get_max_window_bits "client" offer))
          (asValidWindowBits 15) ∧
      (⟨false, false, 10, 15⟩ : NegotiatedParams).val_server_max_window_bits =
        min (asValidWindowBits (get_max_window_bits "server" offer))
          (asValidWindowBits 15) ∧
      8 ≤ (⟨false, false, 10, 15⟩ : NegotiatedParams).val_client_max_window_bits ∧
      (⟨false, false, 10, 15⟩ : NegotiatedParams).val_client_max_window_bits ≤ 15 ∧
      8 ≤ (⟨false, false, 10, 15⟩ : NegotiatedParams).val_server_max_window_bits ∧
      (⟨false, false, 10, 15⟩ : NegotiatedParams).val_server_max_window_bits ≤ 15 :=
  ⟨by decide,
   generateResponse_negotiation false 15 "permessage-deflate; client_max_window_bits=10"
     ⟨false, false, 10, 15⟩ (by decide)⟩

end Ws13
